import Mathlib

/-!
Verification development for the agentbeats submission-action repository.

The repository consists of three standalone Python command-line scripts:
`create_git_info.py`, `upload_submission.py` and `validate_python.py`.
Each script is embedded shallowly below: external effects (the filesystem,
the HTTP layer, the environment, the `git` binary and `json.loads`) are
modelled as explicit inputs, and each script's pure decision logic is
translated function by function from the source.
-/

set_option maxHeartbeats 1000000
set_option linter.unnecessarySeqFocus false

/-- JSON values, as produced by the Python `json` module: objects keep their
field order as a list of key/value pairs (a later duplicate key shadows an
earlier one, matching `dict` construction by `json.loads`). -/
inductive JValue where
  | null
  | bool (b : Bool)
  | num (n : Int)
  | str (s : String)
  | arr (xs : List JValue)
  | obj (fields : List (String × JValue))

/-- Python `dict.get(key)` over the association-list representation of a JSON
object: the last binding of a key wins, as in a `dict` built by `json.loads`. -/
def dictGet? (fields : List (String × JValue)) (key : String) : Option JValue :=
  fields.foldl (fun acc kv => if kv.1 = key then some kv.2 else acc) none

/-- Python single-quote character, used by `repr` of strings. -/
def squote : String := (Char.ofNat 39).toString

mutual

/-- Python `repr` of a JSON-decoded value (used by `str()` on containers). -/
def pyRepr : JValue → String
  | .null => "None"
  | .bool true => "True"
  | .bool false => "False"
  | .num n => toString n
  | .str s => squote ++ s ++ squote
  | .arr xs => "[" ++ String.intercalate ", " (pyReprList xs) ++ "]"
  | .obj fs => "\x7b" ++ String.intercalate ", " (pyReprFields fs) ++ "\x7d"

/-- Helper for `pyRepr` on array elements. -/
def pyReprList : List JValue → List String
  | [] => []
  | v :: vs => pyRepr v :: pyReprList vs

/-- Helper for `pyRepr` on object fields. -/
def pyReprFields : List (String × JValue) → List String
  | [] => []
  | kv :: fs => (squote ++ kv.1 ++ squote ++ ": " ++ pyRepr kv.2) :: pyReprFields fs

end

/-- Python `str()` of a JSON-decoded value: the string itself for strings,
`repr`-style text otherwise. -/
def pyStr : JValue → String
  | .str s => s
  | v => pyRepr v

/-- Python `.upper()` on a value fetched from a JSON object: succeeds only on
strings, any other value raises `AttributeError`. -/
def pyUpper : JValue → Except String String
  | .str s => .ok s.toUpper
  | _ => .error "AttributeError: object has no attribute upper"

/-- Python `.capitalize()` on a value fetched from a JSON object: succeeds only
on strings, any other value raises `AttributeError`. -/
def pyCapitalize : JValue → Except String String
  | .str s => .ok s.capitalize
  | _ => .error "AttributeError: object has no attribute capitalize"

/-- Python `body.get(key, default)`: succeeds with the looked-up value (or the
default) when `body` is a mapping, raises `AttributeError` otherwise. -/
def jGet (body : JValue) (key : String) (default : JValue) : Except String JValue :=
  match body with
  | .obj fields => .ok ((dictGet? fields key).getD default)
  | _ => .error "AttributeError: object has no attribute get"

namespace UploadSubmission

/-! ## upload_submission.py

The base64 alphabet and chunked encoder below model `base64.b64encode` from
the Python standard library, which `upload_submission` applies to the raw
file bytes; `b64decode` is the standard decoder used to state the round-trip
property.  Bytes are natural numbers below 256. -/

/-- The 64-character standard base64 alphabet. -/
def b64Alphabet : List Char :=
  "ABCDEFGHIJKLMNOPQRSTUVWXYZabcdefghijklmnopqrstuvwxyz0123456789+/".toList

/-- The base64 character for a six-bit group. -/
def sextetChar (n : Nat) : Char := b64Alphabet.getD n 'A'

/-- Index of a character in the base64 alphabet, if any. -/
def sextetIndex (c : Char) : Option Nat :=
  List.findIdx? (fun d => d = c) b64Alphabet

/-- Standard base64 encoding of a byte sequence (with `=` padding), as
performed by `base64.b64encode`. -/
def b64encode : List Nat → List Char
  | [] => []
  | [b1] =>
      [sextetChar (b1 / 4), sextetChar (b1 % 4 * 16), '=', '=']
  | [b1, b2] =>
      [sextetChar (b1 / 4), sextetChar (b1 % 4 * 16 + b2 / 16),
       sextetChar (b2 % 16 * 4), '=']
  | b1 :: b2 :: b3 :: rest =>
      sextetChar (b1 / 4) :: sextetChar (b1 % 4 * 16 + b2 / 16) ::
      sextetChar (b2 % 16 * 4 + b3 / 64) :: sextetChar (b3 % 64) ::
      b64encode rest

/-- Standard base64 decoding: processes four characters at a time, honouring
`=` padding in the final group; fails on malformed input. -/
def b64decode : List Char → Option (List Nat)
  | [] => some []
  | c1 :: c2 :: c3 :: c4 :: rest =>
    match sextetIndex c1, sextetIndex c2 with
    | some s1, some s2 =>
      if c3 = '=' then
        if c4 = '=' ∧ rest = [] then some [s1 * 4 + s2 / 16] else none
      else
        match sextetIndex c3 with
        | some s3 =>
          if c4 = '=' then
            if rest = [] then some [s1 * 4 + s2 / 16, s2 % 16 * 16 + s3 / 4]
            else none
          else
            match sextetIndex c4, b64decode rest with
            | some s4, some bs =>
                some ((s1 * 4 + s2 / 16) :: (s2 % 16 * 16 + s3 / 4) ::
                      (s3 % 4 * 64 + s4) :: bs)
            | _, _ => none
        | none => none
    | _, _ => none
  | _ => none

/-- Counterpart of the `SubmissionError` exception class: a title (Python
accepts any JSON value here, since `error_detail.get('error', ...)` may
return a non-string) and optional diagnostic details. -/
structure SubmissionError where
  title : JValue
  details : Option String

/-- A server response attached to a failed request: its raw text and, when
the body parses as JSON, the value `response.json()` would return. -/
structure HttpResponse where
  text : String
  jsonBody : Option JValue

/-- A `requests.exceptions.RequestException`: its `str()` text and the
attached response, if any (absent on pure connection failures). -/
structure RequestError where
  excText : String
  response : Option HttpResponse

/-- The JSON request payload built by `upload_submission`. -/
structure UploadPayload where
  api_key : String
  role : String
  file : List Char
  filename : String

/-- Translation of the `except requests.exceptions.RequestException` handler
in `upload_submission`: with a JSON-object error body the server-supplied
`error` field (defaulting to the exception text) becomes the title and the
exception text the details; with no response, an unparseable body, or a
non-object body (where `.get` raises into the bare `except:`), a generic
"API endpoint not found." error is raised whose details are the exception
text plus a fixed guidance line. -/
def handleRequestException (e : RequestError) : SubmissionError :=
  match e.response with
  | some resp =>
    match resp.jsonBody with
    | some (.obj fields) =>
        { title := (dictGet? fields "error").getD (.str e.excText)
          details := some e.excText }
    | _ =>
        { title := .str "API endpoint not found."
          details := some (e.excText ++ "\n\nPlease check the submission_endpoint is correct.") }
  | none =>
      { title := .str "API endpoint not found."
        details := some (e.excText ++ "\n\nPlease check the submission_endpoint is correct.") }

/-- `Path(file).name`: the final path component, ignoring trailing
slashes (so `dir/` has name `dir`, and `/` has name ``). -/
def fileName (path : String) : String :=
  ((path.dropRightWhile (fun c => c = '/')).splitOn "/").getLastD ""

/-- `Path(file).suffix`: the extension after the name's last dot, including
the dot; empty when the last dot is the name's first character (a bare
leading-dot name such as `.bashrc`), its last character (a trailing-dot
name such as `a.`), or absent. -/
def pathSuffix (path : String) : String :=
  match (fileName path).splitOn "." with
  | [] => ""
  | [_] => ""
  | first :: rest =>
      if first = "" ∧ rest.length = 1 then ""
      else if rest.getLastD "" = "" then ""
      else "." ++ rest.getLastD ""

/-- Command-line arguments of `upload_submission.py` after `argparse`. -/
structure UploaderArgs where
  api_key : String
  endpoint : String
  role : String
  file : String
  file_list : Option String
  submission_path : Option String
  print_info : Bool

/-- The external world of one Uploader run: the parsed arguments, whether the
`--file` path exists and its bytes, the outcome of the single HTTP POST
(either a request-layer failure or the value `response.json()` returns),
whether each CI output environment variable is set, and the content of the
`--file-list` file when that path exists. -/
structure UploaderWorld where
  args : UploaderArgs
  fileExists : Bool
  fileBytes : List Nat
  httpOutcome : Except RequestError JValue
  ghOutputSet : Bool
  ghSummarySet : Bool
  fileListContent : Option String

/-- The payload dictionary literal built in `upload_submission`. -/
def build_payload (api_key role filename : String) (file_content : List Nat) :
    UploadPayload :=
  { api_key := api_key
    role := role
    file := b64encode file_content
    filename := filename }

/-- Translation of `upload_submission`: reads the file bytes, builds the
payload with the base64-encoded content, and performs the POST, converting a
request-layer failure into a `SubmissionError` as the handler dictates.  The
payload is returned alongside the outcome so the request content can be
inspected. -/
def upload_submission (w : UploaderWorld) :
    UploadPayload × Except SubmissionError JValue :=
  (build_payload w.args.api_key w.args.role (fileName w.args.file) w.fileBytes,
   match w.httpOutcome with
   | .ok v => .ok v
   | .error e => .error (handleRequestException e))

/-- Does a Python `'body' in xs` membership test over a JSON array find the
string `"body"`? -/
def arrHasBody (xs : List JValue) : Bool :=
  xs.any fun v => match v with | .str s => s = "body" | _ => false

/-- Does a Python `'body' in s` substring test succeed on a string? -/
def strHasBody (s : String) : Bool := (s.splitOn "body").length ≥ 2

/-- Translation of the body extraction inside `main` (`if 'body' in result:
...`): on a mapping, a string-valued `body` field is JSON-decoded, any other
present `body` value is used directly, and an absent field leaves the whole
mapping as the body; on an array or string, a successful `in` test leads to
`result['body']`, which raises `TypeError`; on other values the `in` test
itself raises. -/
def bodyOf (loads : String → Except String JValue) (result : JValue) :
    Except String JValue :=
  match result with
  | .obj fields =>
    match dictGet? fields "body" with
    | some (.str s) => loads s
    | some b => .ok b
    | none => .ok (.obj fields)
  | .arr xs =>
      if arrHasBody xs then .error "TypeError: list indices must be integers or slices, not str"
      else .ok (.arr xs)
  | .str s =>
      if strHasBody s then .error "TypeError: string indices must be integers"
      else .ok (.str s)
  | _ => .error "TypeError: argument is not iterable"

/-- Translation of the response normalization in `main` (lines 131-141): a
top-level string is first decoded with `json.loads`, then the logical body is
extracted with `bodyOf`.  `loads` stands for `json.loads`, which may raise. -/
def normalize (loads : String → Except String JValue) (result : JValue) :
    Except String JValue :=
  match result with
  | .str s =>
    match loads s with
    | .ok decoded => bodyOf loads decoded
    | .error msg => .error msg
  | v => bodyOf loads v

/-- `"=" * 60`, the banner separator. -/
def sepLine : String := "".pushn '=' 60

/-- The detailed-info block printed under `--print-info`: each field access
goes through `body.get` with a placeholder default; only `role` is passed to
`.upper()`/`.capitalize()`, which raise on non-string values. -/
def printInfoBlock (body : JValue) : Except String (List String) := do
  let team ← jGet body "team_name" (.str "Unknown")
  let role ← jGet body "role" (.str "Unknown")
  let roleU ← pyUpper role
  let subNum ← jGet body "submission_number" (.str "Unknown")
  let atk ← jGet body "attacker_submissions" (.str "Unknown")
  let dfn ← jGet body "defender_submissions" (.str "Unknown")
  let role2 ← jGet body "role" (.str "Unknown")
  let roleCap ← pyCapitalize role2
  let roleSub ← jGet body "role_submission_number" (.str "Unknown")
  let fileCount ← jGet body "file_count" (.str "Unknown")
  let totalSize ← jGet body "total_size" (.str "Unknown")
  let time ← jGet body "submission_time" (.str "Unknown")
  let s3 ← jGet body "s3_prefix" (.str "Unknown")
  let msg ← jGet body "message" (.str "No message")
  .ok ["", sepLine, "✅ Submission Successful!", sepLine, "",
       s!"  Team: {pyStr team}",
       s!"  Role: {roleU}",
       "",
       s!"  Total Submissions: {pyStr subNum}",
       s!"  Attacker Submissions: {pyStr atk}",
       s!"  Defender Submissions: {pyStr dfn}",
       s!"  This {roleCap} Submission: #{pyStr roleSub}",
       "",
       s!"  Files: {pyStr fileCount} files ({pyStr totalSize} bytes)",
       s!"  Time: {pyStr time}",
       s!"  S3 Prefix: {pyStr s3}",
       "",
       s!"  Message: {pyStr msg}",
       ""]

/-- The key=value lines appended to the `GITHUB_OUTPUT` file on success. -/
def ghOutputBlock (body : JValue) : Except String (List String) := do
  let subNum ← jGet body "submission_number" (.str "Unknown")
  let msg ← jGet body "message" (.str "Submission successful")
  .ok ["status=success",
       s!"submission_number={pyStr subNum}",
       s!"message={pyStr msg}"]

/-- The collapsible file listing appended to the Markdown summary when the
`--file-list` argument is a non-empty string, the file it names exists, and
its content lists at least one file after stripping blank lines; each entry
is shown under the display path prefix with trailing slashes removed. -/
def fileListLines (args : UploaderArgs) (flc : Option String) : List String :=
  match args.file_list, flc with
  | some fl, some content =>
    if fl = "" then []
    else
      let files := (content.trim.splitOn "\n").filter (fun f => f ≠ "")
      if files = [] then []
      else
        let pfx := (args.submission_path.getD "").dropRightWhile (fun c => c = '/')
        ["<details>", s!"<summary>📁 Uploaded Files ({pfx}/)</summary>", "```"]
          ++ files.map (fun f => pfx ++ "/" ++ f) ++ ["```", "</details>"]
  | _, _ => []

/-- The Markdown summary appended to the `GITHUB_STEP_SUMMARY` file on
success, including the collapsible file listing when a non-empty file list
is available. -/
def ghSummaryBlock (args : UploaderArgs) (fileListContent : Option String)
    (body : JValue) : Except String (List String) := do
  let role ← jGet body "role" (.str "unknown")
  let roleEmoji := match role with
    | .str s => if s = "attacker" then "🔴" else "🔵"
    | _ => "🔵"
  let team ← jGet body "team_name" (.str "Unknown")
  let roleU ← pyUpper role
  let roleSub ← jGet body "role_submission_number" (.str "?")
  let subNum ← jGet body "submission_number" (.str "?")
  let atk ← jGet body "attacker_submissions" (.str "?")
  let dfn ← jGet body "defender_submissions" (.str "?")
  let fileCount ← jGet body "file_count" (.str "?")
  let totalSize ← jGet body "total_size" (.str "?")
  let time ← jGet body "submission_time" (.str "?")
  let msg ← jGet body "message" (.str "Submission successful")
  let base :=
    [s!"## {roleEmoji} Submission Successful!",
     s!"### Team: **{pyStr team}**",
     "| Metric | Value |",
     "|--------|-------|",
     s!"| **Role** | {roleU} |",
     s!"| **This Submission** | #{pyStr roleSub} |",
     s!"| **Total Submissions** | {pyStr subNum} |",
     s!"| **Attacker Submissions** | {pyStr atk} |",
     s!"| **Defender Submissions** | {pyStr dfn} |",
     s!"| **Files Uploaded** | {pyStr fileCount} |",
     s!"| **Total Size** | {pyStr totalSize} bytes |",
     s!"| **Submission Time** | {pyStr time} |",
     s!"> 💡 {pyStr msg}"]
  .ok (base ++ fileListLines args fileListContent)

/-- The logical-body keys `main` reads with `body.get`, across the
detailed-info block and the two CI output blocks. -/
def consumedKeys : List String :=
  ["team_name", "role", "submission_number", "attacker_submissions",
   "defender_submissions", "role_submission_number", "file_count",
   "total_size", "submission_time", "s3_prefix", "message"]

/-- An exception reaching `main`'s `except Exception` handler: either a
`SubmissionError` or some other exception carrying only a message. -/
inductive PyErr where
  | submission (e : SubmissionError)
  | other (msg : String)

/-- Python `str(e)` on an exception caught by `main`. -/
def errStr : PyErr → String
  | .submission e => pyStr e.title
  | .other m => m

/-- The lines printed by `main`'s failure banner. -/
def failureStdout (e : PyErr) : List String :=
  ["", sepLine, "❌ Submission Failed!", sepLine, "", s!"  Error: {errStr e}", ""]

/-- The key=value lines appended to `GITHUB_OUTPUT` on failure. -/
def failureGhOutput (e : PyErr) : List String :=
  ["status=failure", s!"message=Submission failed: {errStr e}"]

/-- The Markdown summary appended to `GITHUB_STEP_SUMMARY` on failure. -/
def failureGhSummary (e : PyErr) : List String :=
  match e with
  | .submission se =>
    match se.details with
    | some d => ["## ❌ Submission Failed", s!"**Error:** {pyStr se.title}", "```", d, "```"]
    | none => ["## ❌ Submission Failed", s!"**Error:** {pyStr se.title}"]
  | .other m => ["## ❌ Submission Failed", s!"**Error:** {m}"]

/-- Observable outcome of one run of the Uploader's `main`: the process exit
code, the lines printed to standard output by `main`, the content of the
`submission_result.json` file if it was written, the lines appended to the
two CI output files, and whether the upload request was attempted at all. -/
structure MainOutcome where
  exitCode : Nat
  stdout : List String
  resultFile : Option JValue
  ghOutputLines : List String
  ghSummaryLines : List String
  uploadAttempted : Bool

/-- Assembles the failure outcome of `main`'s `except Exception` handler. -/
def mkFailure (w : UploaderWorld) (pre : List String) (e : PyErr) : MainOutcome :=
  { exitCode := 1
    stdout := pre ++ failureStdout e
    resultFile := none
    ghOutputLines := if w.ghOutputSet then failureGhOutput e else []
    ghSummaryLines := if w.ghSummarySet then failureGhSummary e else []
    uploadAttempted := true }

/-- Bundled effects of the success path after the upload returned. -/
structure SuccessEffects where
  stdout : List String
  ghOutput : List String
  ghSummary : List String

/-- The remainder of `main`'s `try` block after `upload_submission`
returned: normalize the response and run the three optional output blocks in
program order; any raised exception aborts the rest of the block. -/
def successRest (loads : String → Except String JValue) (w : UploaderWorld)
    (result : JValue) : Except String SuccessEffects := do
  let body ← normalize loads result
  let infoLines ← if w.args.print_info then printInfoBlock body else pure []
  let ghLines ← if w.ghOutputSet then ghOutputBlock body else pure []
  let sumLines ← if w.ghSummarySet then ghSummaryBlock w.args w.fileListContent body else pure []
  .ok ⟨infoLines, ghLines, sumLines⟩

/-- Translation of the Uploader's `main`: fails immediately (printing the
File-not-found message, attempting no upload and writing no result file)
when the `--file` path does not exist; otherwise prints the banner, runs the
upload inside the `try` block, writes `submission_result.json` on HTTP
success, and produces either the success outputs or the failure outputs,
with exit code 0 exactly on an exception-free success path. -/
def main (loads : String → Except String JValue) (w : UploaderWorld) : MainOutcome :=
  if w.fileExists = false then
    { exitCode := 1
      stdout := [s!"❌ Error: File not found: {w.args.file}"]
      resultFile := none
      ghOutputLines := []
      ghSummaryLines := []
      uploadAttempted := false }
  else
    let warn := if pathSuffix w.args.file ≠ ".zip"
      then [s!"⚠️  Warning: File does not have .zip extension: {w.args.file}"] else []
    let header := [sepLine, s!"🚀 Competition Submission Upload ({w.args.role.toUpper})", sepLine, ""]
    let pre := warn ++ header
    match (upload_submission w).2 with
    | .error e => mkFailure w pre (.submission e)
    | .ok result =>
      match successRest loads w result with
      | .ok eff =>
        { exitCode := 0
          stdout := pre ++ eff.stdout
          resultFile := some result
          ghOutputLines := eff.ghOutput
          ghSummaryLines := eff.ghSummary
          uploadAttempted := true }
      | .error msg => { mkFailure w pre (.other msg) with resultFile := some result }

end UploadSubmission

namespace ValidatePython

/-! ## validate_python.py -/

/-- Outcome of the `py_compile.compile(..., doraise=True)` stage on one
file: success, or a raised exception carrying its `str()` text.  A source
file with a syntax error makes this stage raise `py_compile.PyCompileError`
(which wraps the parser's `SyntaxError` in its formatted message but is not
itself a `SyntaxError` subclass); other failures (unreadable file, bytecode
write error) raise other non-`SyntaxError` exceptions.  Hence no compile
failure is dispatched to an `except SyntaxError` handler. -/
inductive CompileOutcome where
  | ok
  | error (msg : String)

/-- Outcome of the read-and-`ast.parse` stage on one file (reached only
when the compile stage succeeded): success, a raised `SyntaxError` carrying
line number and message (possible even after a successful compile, e.g. for
a non-UTF-8 encoding declaration in the re-decoded text), or any other
raised exception (e.g. a `UnicodeDecodeError` from the UTF-8 re-read)
carrying its message. -/
inductive CheckOutcome where
  | ok
  | syntaxError (lineno : Nat) (msg : String)
  | otherError (msg : String)

/-- One discovered Python file: its path relative to the submission root and
what each validation stage would do on it. -/
structure PyFile where
  relPath : String
  compileOutcome : CompileOutcome
  astOutcome : CheckOutcome

/-- The external world of one Validator run: whether a path argument was
given, whether it exists, the files `rglob('*.py')` discovers (in traversal
order), and whether `requirements.txt` is present. -/
structure ValidatorWorld where
  pathProvided : Bool
  pathExists : Bool
  pyFiles : List PyFile
  requirementsExists : Bool

/-- Translation of `validate_python_syntax`: runs `py_compile.compile` with
`doraise=True` and then read-and-`ast.parse` inside one `try`.  Every
compile-stage exception — including `PyCompileError` for a source syntax
error, since it is not a `SyntaxError` subclass — is caught by the
`except Exception` handler and reported as `(False, "Error: msg")`; only an
ast-stage `SyntaxError` reaches the `except SyntaxError` handler and its
`(False, "Syntax error at line N: msg")` form; `(True, "")` is returned
when both stages succeed. -/
def validate_python_syntax (f : PyFile) : Bool × String :=
  match f.compileOutcome with
  | .error m => (false, s!"Error: {m}")
  | .ok =>
    match f.astOutcome with
    | .syntaxError n m => (false, s!"Syntax error at line {n}: {m}")
    | .otherError m => (false, s!"Error: {m}")
    | .ok => (true, "")

/-- Translation of `check_required_structure`: fails when no Python file is
discovered, otherwise succeeds with a warning when `requirements.txt` is
missing. -/
def check_required_structure (w : ValidatorWorld) : Bool × List String :=
  match w.pyFiles with
  | [] => (false, ["No Python files found in submission"])
  | _ =>
      (true,
       if w.requirementsExists = false
       then ["No requirements.txt found - make sure all dependencies are documented"]
       else [])

/-- The per-file results printed by the validation loop, one entry per
discovered file in traversal order. -/
def validate_results (files : List PyFile) : List (String × Bool × String) :=
  files.map fun f =>
    (f.relPath, ( validate_python_syntax f).1, ( validate_python_syntax f).2)

/-- The `errors` list accumulated by the validation loop, in traversal
order: one entry per failing file, skipping passing files. -/
def validate_errors : List PyFile → List (String × String)
  | [] => []
  | f :: fs =>
    match validate_python_syntax f with
    | (true, _) => validate_errors fs
    | (false, msg) => (f.relPath, msg) :: validate_errors fs

/-- Translation of the Validator's `main`: exits 1 with no per-file results
when no argument is given, the path does not exist, or the structure check
fails (zero Python files); otherwise checks every discovered file and exits
0 exactly when the accumulated error list is empty.  The second component is
the list of per-file results the loop produced. -/
def main (w : ValidatorWorld) : Nat × List (String × Bool × String) :=
  if w.pathProvided = false then (1, [])
  else if w.pathExists = false then (1, [])
  else
    match check_required_structure w with
    | (false, _) => (1, [])
    | (true, _) =>
      let results := validate_results w.pyFiles
      match validate_errors w.pyFiles with
      | [] => (0, results)
      | _ => (1, results)

end ValidatePython

namespace CreateGitInfo

/-! ## create_git_info.py -/

/-- The external world of one Metadata Collector run: for each of the nine
fixed git queries, `some output` when the subprocess succeeds (its raw
standard output) or `none` when the tool is absent or the command fails. -/
structure GitWorld where
  revParseHead : Option String
  revParseShort : Option String
  logMessage : Option String
  revParseBranch : Option String
  describeTag : Option String
  remoteUrl : Option String
  logAuthor : Option String
  logEmail : Option String
  logTimestamp : Option String

/-- Translation of `git_cmd`: the stripped subprocess output on success, the
empty string when `CalledProcessError` or `FileNotFoundError` is raised. -/
def git_cmd (outcome : Option String) : String :=
  match outcome with
  | some out => out.trim
  | none => ""

/-- Python `.split('\n')[0]`: the prefix of a string before its first
newline (the whole string when it has none). -/
def firstLine (s : String) : String :=
  String.mk (s.toList.takeWhile (fun c => c ≠ '\n'))

/-- The assembled metadata record written to `GIT_INFO.json`. -/
structure GitInfo where
  commit : String
  commit_short : String
  message : String
  branch : String
  tag : String
  remote_url : String
  author : String
  author_email : String
  commit_timestamp : String

/-- Translation of the Metadata Collector's `main`: each field is computed
from its own query alone by `git_cmd`; the `message` field additionally
keeps only the first line (`.split('\n')[0]`). -/
def main (w : GitWorld) : GitInfo :=
  { commit := git_cmd w.revParseHead
    commit_short := git_cmd w.revParseShort
    message := firstLine (git_cmd w.logMessage)
    branch := git_cmd w.revParseBranch
    tag := git_cmd w.describeTag
    remote_url := git_cmd w.remoteUrl
    author := git_cmd w.logAuthor
    author_email := git_cmd w.logEmail
    commit_timestamp := git_cmd w.logTimestamp }

/-- Names of the nine git queries / record fields, used to state that each
field depends only on its own query. -/
inductive GitField where
  | commit | commit_short | message | branch | tag
  | remote_url | author | author_email | commit_timestamp
deriving DecidableEq

/-- The query outcome a field is computed from. -/
def queryOf (w : GitWorld) : GitField → Option String
  | .commit => w.revParseHead
  | .commit_short => w.revParseShort
  | .message => w.logMessage
  | .branch => w.revParseBranch
  | .tag => w.describeTag
  | .remote_url => w.remoteUrl
  | .author => w.logAuthor
  | .author_email => w.logEmail
  | .commit_timestamp => w.logTimestamp

/-- Projection of the assembled record at a field name. -/
def fieldOf (i : GitInfo) : GitField → String
  | .commit => i.commit
  | .commit_short => i.commit_short
  | .message => i.message
  | .branch => i.branch
  | .tag => i.tag
  | .remote_url => i.remote_url
  | .author => i.author
  | .author_email => i.author_email
  | .commit_timestamp => i.commit_timestamp

end CreateGitInfo

/-! ## Theorems -/

namespace UploadSubmission

theorem sextetIndex_sextetChar {n : Nat} (h : n < 64) :
    sextetIndex (sextetChar n) = some n := by
  have key : ∀ i : Fin 64, sextetIndex (sextetChar i.val) = some i.val := by decide
  exact key ⟨n, h⟩

theorem sextetChar_ne_pad {n : Nat} (h : n < 64) : sextetChar n ≠ '=' := by
  have key : ∀ i : Fin 64, sextetChar i.val ≠ '=' := by decide
  exact key ⟨n, h⟩

theorem b64_roundtrip : ∀ l : List Nat, (∀ b ∈ l, b < 256) →
    b64decode (b64encode l) = some l := by
  intro l
  induction l using b64encode.induct with
  | case1 =>
    intro _
    rfl
  | case2 b1 =>
    intro h
    have hb1 : b1 < 256 := h b1 (by simp)
    have h1 : b1 / 4 < 64 := by omega
    have h2 : b1 % 4 * 16 < 64 := by omega
    show b64decode [sextetChar (b1 / 4), sextetChar (b1 % 4 * 16), '=', '='] = _
    simp only [b64decode, sextetIndex_sextetChar h1, sextetIndex_sextetChar h2]
    simp
    omega
  | case3 b1 b2 =>
    intro h
    have hb1 : b1 < 256 := h b1 (by simp)
    have hb2 : b2 < 256 := h b2 (by simp)
    have h1 : b1 / 4 < 64 := by omega
    have h2 : b1 % 4 * 16 + b2 / 16 < 64 := by omega
    have h3 : b2 % 16 * 4 < 64 := by omega
    show b64decode [sextetChar (b1 / 4), sextetChar (b1 % 4 * 16 + b2 / 16),
        sextetChar (b2 % 16 * 4), '='] = _
    simp only [b64decode, sextetIndex_sextetChar h1, sextetIndex_sextetChar h2,
      sextetIndex_sextetChar h3]
    rw [if_neg (sextetChar_ne_pad h3)]
    simp
    omega
  | case4 b1 b2 b3 rest ih =>
    intro h
    have hb1 : b1 < 256 := h b1 (by simp)
    have hb2 : b2 < 256 := h b2 (by simp)
    have hb3 : b3 < 256 := h b3 (by simp)
    have h1 : b1 / 4 < 64 := by omega
    have h2 : b1 % 4 * 16 + b2 / 16 < 64 := by omega
    have h3 : b2 % 16 * 4 + b3 / 64 < 64 := by omega
    have h4 : b3 % 64 < 64 := by omega
    have hrest : ∀ b ∈ rest, b < 256 := fun b hb => h b (by simp [hb])
    show b64decode (sextetChar (b1 / 4) :: sextetChar (b1 % 4 * 16 + b2 / 16) ::
        sextetChar (b2 % 16 * 4 + b3 / 64) :: sextetChar (b3 % 64) ::
        b64encode rest) = _
    simp only [b64decode, sextetIndex_sextetChar h1, sextetIndex_sextetChar h2,
      sextetIndex_sextetChar h3, sextetIndex_sextetChar h4, ih hrest]
    rw [if_neg (sextetChar_ne_pad h3), if_neg (sextetChar_ne_pad h4)]
    simp
    refine ⟨by omega, by omega, by omega⟩

/-- C1: for every byte sequence that is the content of the archive file read
by `upload_submission`, the `file` field of the request payload is exactly
the base64 encoding of those bytes, and base64-decoding that field yields
the original byte sequence unchanged. -/
theorem c1_payload_base64_roundtrip (w : UploaderWorld)
    (h : ∀ b ∈ w.fileBytes, b < 256) :
    (upload_submission w).1.file = b64encode w.fileBytes ∧
    b64decode ((upload_submission w).1.file) = some w.fileBytes :=
  ⟨rfl, b64_roundtrip w.fileBytes h⟩

theorem c1_payload_base64_roundtrip_witness :
    (upload_submission ⟨⟨"key", "https://endpoint", "attacker", "model.zip",
        none, none, false⟩, true, [77, 97, 110, 255, 0], .ok .null,
        false, false, none⟩).1.file = b64encode [77, 97, 110, 255, 0] ∧
    b64decode ((upload_submission ⟨⟨"key", "https://endpoint", "attacker",
        "model.zip", none, none, false⟩, true, [77, 97, 110, 255, 0],
        .ok .null, false, false, none⟩).1.file) = some [77, 97, 110, 255, 0] :=
  c1_payload_base64_roundtrip _ (by decide)

end UploadSubmission

namespace ValidatePython

theorem validate_pass_iff (f : PyFile) :
    ( validate_python_syntax f).1 = true ↔
      f.compileOutcome = .ok ∧ f.astOutcome = .ok := by
  cases hc : f.compileOutcome <;> cases ha : f.astOutcome <;>
    simp [ validate_python_syntax, hc, ha]

theorem validate_errors_nil_iff (files : List PyFile) :
    validate_errors files = [] ↔
      ∀ f ∈ files, ( validate_python_syntax f).1 = true := by
  induction files with
  | nil => simp [validate_errors]
  | cons f fs ih =>
    cases hv : validate_python_syntax f with
    | mk ok msg =>
      cases ok <;> simp [validate_errors, hv, ih]

theorem main_snd_eq (w : ValidatorWorld) (hpp : w.pathProvided = true)
    (hpe : w.pathExists = true) (hne : w.pyFiles ≠ []) :
    (main w).2 = validate_results w.pyFiles := by
  obtain ⟨pp, pe, files, req⟩ := w
  subst hpp hpe
  cases files with
  | nil => exact absurd rfl hne
  | cons f fs =>
    simp only [main, check_required_structure]
    cases validate_errors (f :: fs) <;> simp

/-- C2: the claim asserts a syntax-error file is reported in the
`Syntax error at line N: msg` form; in fact `py_compile.compile` with
`doraise=True` wraps the parser's `SyntaxError` in `PyCompileError`, which
is not a `SyntaxError` subclass, so at this concrete file the per-file
check lands in the `except Exception` handler and returns the generic
`Error: ...` form instead (the main loop does still produce a result for
every discovered file, the broken one carrying the generic message). -/
theorem c2_pycompile_error_not_syntax_form :
    validate_python_syntax
      ⟨"bad.py", .error "  File \"bad.py\", line 3\n    def f(:\nSyntaxError: invalid syntax", .ok⟩ =
      (false, "Error:   File \"bad.py\", line 3\n    def f(:\nSyntaxError: invalid syntax") ∧
    validate_python_syntax
      ⟨"bad.py", .error "  File \"bad.py\", line 3\n    def f(:\nSyntaxError: invalid syntax", .ok⟩ ≠
      (false, "Syntax error at line 3: invalid syntax") ∧
    (main ⟨true, true,
        [⟨"good.py", .ok, .ok⟩,
         ⟨"bad.py", .error "  File \"bad.py\", line 3\n    def f(:\nSyntaxError: invalid syntax", .ok⟩],
        true⟩).2 =
      [("good.py", true, ""),
       ("bad.py", false,
        "Error:   File \"bad.py\", line 3\n    def f(:\nSyntaxError: invalid syntax")] := by
  refine ⟨rfl, by decide, rfl⟩

/-- C5: the Validator exits 0 exactly when a path was given, it exists, at
least one Python file was discovered, and every discovered file passes both
the compile check and the AST parse; every other run exits 1, and a run
that discovers zero Python files produces no per-file results. -/
theorem c5_exit_code_characterization (w : ValidatorWorld) :
    ((main w).1 = 0 ↔
      (w.pathProvided = true ∧ w.pathExists = true ∧ w.pyFiles ≠ [] ∧
       ∀ f ∈ w.pyFiles, f.compileOutcome = .ok ∧ f.astOutcome = .ok)) ∧
    ((main w).1 = 0 ∨ (main w).1 = 1) ∧
    (w.pyFiles = [] → (main w).2 = []) := by
  obtain ⟨pp, pe, files, req⟩ := w
  cases pp
  · simp [main]
  · cases pe
    · simp [main]
    · cases files with
      | nil => simp [main, check_required_structure]
      | cons f fs =>
        cases hve : validate_errors (f :: fs) with
        | nil =>
          have hall := (validate_errors_nil_iff (f :: fs)).mp hve
          have hm : main ⟨true, true, f :: fs, req⟩ =
              (0, validate_results (f :: fs)) := by
            simp [main, check_required_structure, hve]
          rw [hm]
          refine ⟨?_, Or.inl rfl, by simp⟩
          constructor
          · intro _
            exact ⟨rfl, rfl, by simp,
              fun g hg => (validate_pass_iff g).mp (hall g hg)⟩
          · intro _
            rfl
        | cons e es =>
          have hm : main ⟨true, true, f :: fs, req⟩ =
              (1, validate_results (f :: fs)) := by
            simp [main, check_required_structure, hve]
          rw [hm]
          refine ⟨?_, Or.inr rfl, by simp⟩
          constructor
          · intro h
            exact absurd h one_ne_zero
          · rintro ⟨-, -, -, hall⟩
            have hnil : validate_errors (f :: fs) = [] :=
              (validate_errors_nil_iff (f :: fs)).mpr
                (fun g hg => (validate_pass_iff g).mpr (hall g hg))
            rw [hnil] at hve
            exact absurd hve (by simp)

theorem c5_exit_code_characterization_witness :
    ((main ⟨true, true, [⟨"a.py", .ok, .ok⟩], true⟩).1 = 0 ↔
      ((true : Bool) = true ∧ (true : Bool) = true ∧
       ([⟨"a.py", .ok, .ok⟩] : List PyFile) ≠ [] ∧
       ∀ f ∈ ([⟨"a.py", .ok, .ok⟩] : List PyFile),
         f.compileOutcome = .ok ∧ f.astOutcome = .ok)) ∧
    ((main ⟨true, true, [⟨"a.py", .ok, .ok⟩], true⟩).1 = 0 ∨
     (main ⟨true, true, [⟨"a.py", .ok, .ok⟩], true⟩).1 = 1) ∧
    (([⟨"a.py", .ok, .ok⟩] : List PyFile) = [] →
      (main ⟨true, true, [⟨"a.py", .ok, .ok⟩], true⟩).2 = []) :=
  c5_exit_code_characterization ⟨true, true, [⟨"a.py", .ok, .ok⟩], true⟩

end ValidatePython

namespace CreateGitInfo

/-- C7: when any one of the nine git queries fails, the corresponding field
of the assembled record is the empty string, and every field of the record
is a function of its own query alone, so one query's failure can never
change (or prevent) the collection of any other field. -/
theorem c7_query_failure_isolated (w : GitWorld) (q : GitField)
    (hfail : queryOf w q = none) :
    fieldOf (main w) q = "" ∧
    ∀ (w' : GitWorld) (q' : GitField), queryOf w' q' = queryOf w q' →
      fieldOf (main w') q' = fieldOf (main w) q' := by
  constructor
  · cases q <;> simp_all [queryOf, fieldOf, main, git_cmd] <;> rfl
  · intro w' q' hq
    cases q' <;> simp_all [queryOf, fieldOf, main]

theorem c7_query_failure_isolated_witness :
    fieldOf (main ⟨some "abc123", none, none, none, none, none, none, none,
      none⟩) .tag = "" ∧
    fieldOf (main ⟨some "abc123", some "abc", some "fix bug", some "main",
        some "v1.0", some "git@host:r.git", some "Ada", some "ada@host",
        some "2024-01-01T00:00:00+00:00"⟩) .commit =
      fieldOf (main ⟨some "abc123", none, none, none, none, none, none,
        none, none⟩) .commit := by
  have h := c7_query_failure_isolated
    ⟨some "abc123", none, none, none, none, none, none, none, none⟩ .tag rfl
  exact ⟨h.1, h.2 ⟨some "abc123", some "abc", some "fix bug", some "main",
    some "v1.0", some "git@host:r.git", some "Ada", some "ada@host",
    some "2024-01-01T00:00:00+00:00"⟩ .commit rfl⟩

end CreateGitInfo

namespace UploadSubmission

/-- C8: invoking the Uploader with a `--file` path that does not exist
prints the File-not-found message, exits with code 1, writes no
`submission_result.json`, and never attempts the upload request. -/
theorem c8_missing_file_aborts (loads : String → Except String JValue)
    (w : UploaderWorld) (h : w.fileExists = false) :
    (main loads w).exitCode = 1 ∧
    (main loads w).stdout = [s!"❌ Error: File not found: {w.args.file}"] ∧
    (main loads w).resultFile = none ∧
    (main loads w).uploadAttempted = false := by
  simp [main, h]

theorem c8_missing_file_aborts_witness :
    (main (fun _ => .error "unused")
        ⟨⟨"key", "https://endpoint", "defender", "missing.zip", none, none,
          false⟩, false, [], .ok .null, false, false, none⟩).exitCode = 1 ∧
    (main (fun _ => .error "unused")
        ⟨⟨"key", "https://endpoint", "defender", "missing.zip", none, none,
          false⟩, false, [], .ok .null, false, false, none⟩).stdout =
      ["❌ Error: File not found: missing.zip"] ∧
    (main (fun _ => .error "unused")
        ⟨⟨"key", "https://endpoint", "defender", "missing.zip", none, none,
          false⟩, false, [], .ok .null, false, false, none⟩).resultFile = none ∧
    (main (fun _ => .error "unused")
        ⟨⟨"key", "https://endpoint", "defender", "missing.zip", none, none,
          false⟩, false, [], .ok .null, false, false, none⟩).uploadAttempted
      = false :=
  c8_missing_file_aborts _ _ rfl

/-- C3 as frozen asserts the error detail is the raw response text; at this
input the response text is `<html>Not Found</html>` but the raised error's
detail is built from the exception text instead, so the claim is false. -/
theorem c3_detail_not_response_text_counterexample :
    (handleRequestException ⟨"404 Client Error: Not Found for url: https://endpoint",
        some ⟨"<html>Not Found</html>", none⟩⟩).title =
      .str "API endpoint not found." ∧
    (handleRequestException ⟨"404 Client Error: Not Found for url: https://endpoint",
        some ⟨"<html>Not Found</html>", none⟩⟩).details ≠
      some "<html>Not Found</html>" := by
  exact ⟨rfl, by decide⟩

/-- C3 (amended): when an HTTP-layer failure carries a response whose body
is not valid JSON, `upload_submission` raises an error titled with the
generic "API endpoint not found." phrase whose detail is the exception text
followed by the fixed guidance line (the raw response text is only printed,
not stored in the detail), and the process exits with code 1. -/
theorem c3_invalid_json_body_generic_error (loads : String → Except String JValue)
    (w : UploaderWorld) (e : RequestError) (resp : HttpResponse)
    (hfile : w.fileExists = true) (hout : w.httpOutcome = .error e)
    (hresp : e.response = some resp) (hjson : resp.jsonBody = none) :
    (upload_submission w).2 = .error ⟨.str "API endpoint not found.",
      some (e.excText ++ "\n\nPlease check the submission_endpoint is correct.")⟩ ∧
    (main loads w).exitCode = 1 := by
  have hh : handleRequestException e = ⟨.str "API endpoint not found.",
      some (e.excText ++ "\n\nPlease check the submission_endpoint is correct.")⟩ := by
    simp [handleRequestException, hresp, hjson]
  refine ⟨?_, ?_⟩
  · simp [upload_submission, hout, hh]
  · simp [main, hfile, upload_submission, hout, hh, mkFailure]

theorem c3_invalid_json_body_generic_error_witness :
    (upload_submission ⟨⟨"key", "https://endpoint", "attacker", "model.zip",
        none, none, false⟩, true, [1, 2, 3],
        .error ⟨"404 Client Error", some ⟨"<html>Not Found</html>", none⟩⟩,
        false, false, none⟩).2 =
      .error ⟨.str "API endpoint not found.",
        some ("404 Client Error" ++ "\n\nPlease check the submission_endpoint is correct.")⟩ ∧
    (main (fun _ => .error "unused")
        ⟨⟨"key", "https://endpoint", "attacker", "model.zip", none, none,
          false⟩, true, [1, 2, 3],
          .error ⟨"404 Client Error", some ⟨"<html>Not Found</html>", none⟩⟩,
          false, false, none⟩).exitCode = 1 :=
  c3_invalid_json_body_generic_error _ _
    ⟨"404 Client Error", some ⟨"<html>Not Found</html>", none⟩⟩
    ⟨"<html>Not Found</html>", none⟩ rfl rfl rfl rfl

/-- C6: when an HTTP-layer failure carries a response whose body is a JSON
object with an `error` field, `upload_submission` raises an error titled
with the server-supplied message whose detail is the raw exception text,
and the process exits with code 1. -/
theorem c6_server_error_title (loads : String → Except String JValue)
    (w : UploaderWorld) (e : RequestError) (resp : HttpResponse)
    (fields : List (String × JValue)) (msg : String)
    (hfile : w.fileExists = true) (hout : w.httpOutcome = .error e)
    (hresp : e.response = some resp)
    (hjson : resp.jsonBody = some (.obj fields))
    (herr : dictGet? fields "error" = some (.str msg)) :
    (upload_submission w).2 = .error ⟨.str msg, some e.excText⟩ ∧
    (main loads w).exitCode = 1 := by
  have hh : handleRequestException e = ⟨.str msg, some e.excText⟩ := by
    simp [handleRequestException, hresp, hjson, herr]
  refine ⟨?_, ?_⟩
  · simp [upload_submission, hout, hh]
  · simp [main, hfile, upload_submission, hout, hh, mkFailure]

theorem c6_server_error_title_witness :
    (upload_submission ⟨⟨"key", "https://endpoint", "attacker", "model.zip",
        none, none, false⟩, true, [1, 2, 3],
        .error ⟨"400 Client Error: Bad Request",
          some ⟨"body", some (.obj [("error", .str "invalid role")])⟩⟩,
        false, false, none⟩).2 =
      .error ⟨.str "invalid role", some "400 Client Error: Bad Request"⟩ ∧
    (main (fun _ => .error "unused")
        ⟨⟨"key", "https://endpoint", "attacker", "model.zip", none, none,
          false⟩, true, [1, 2, 3],
          .error ⟨"400 Client Error: Bad Request",
            some ⟨"body", some (.obj [("error", .str "invalid role")])⟩⟩,
          false, false, none⟩).exitCode = 1 :=
  c6_server_error_title _ _
    ⟨"400 Client Error: Bad Request",
      some ⟨"body", some (.obj [("error", .str "invalid role")])⟩⟩
    ⟨"body", some (.obj [("error", .str "invalid role")])⟩
    [("error", .str "invalid role")] "invalid role" rfl rfl rfl rfl rfl

/-- C9: the normalization of a successful response handles three shapes: a
top-level JSON string is decoded (and, without a `body` wrapper, the decoded
mapping is the logical body); a mapping with a string `body` field has that
field JSON-decoded as the logical body; and a mapping whose `body` field is
already a mapping uses that mapping directly with no further decoding. -/
theorem c9_normalize_three_shapes (loads : String → Except String JValue)
    (s1 : String) (f1 : List (String × JValue))
    (f2 : List (String × JValue)) (s2 : String) (j : JValue)
    (f3 g : List (String × JValue)) :
    (loads s1 = .ok (.obj f1) → dictGet? f1 "body" = none →
      normalize loads (.str s1) = .ok (.obj f1)) ∧
    (dictGet? f2 "body" = some (.str s2) → loads s2 = .ok j →
      normalize loads (.obj f2) = .ok j) ∧
    (dictGet? f3 "body" = some (.obj g) →
      normalize loads (.obj f3) = .ok (.obj g)) := by
  refine ⟨?_, ?_, ?_⟩
  · intro h1 h2
    simp [normalize, h1, bodyOf, h2]
  · intro h1 h2
    simp [normalize, bodyOf, h1, h2]
  · intro h1
    simp [normalize, bodyOf, h1]

theorem c9_normalize_three_shapes_witness :
    normalize
      (fun s => if s = "A" then .ok (.obj [("team_name", .str "Foo")])
                else .ok (.obj [("x", .null)]))
      (.str "A") = .ok (.obj [("team_name", .str "Foo")]) ∧
    normalize
      (fun s => if s = "A" then .ok (.obj [("team_name", .str "Foo")])
                else .ok (.obj [("x", .null)]))
      (.obj [("body", .str "B")]) = .ok (.obj [("x", .null)]) ∧
    normalize
      (fun s => if s = "A" then .ok (.obj [("team_name", .str "Foo")])
                else .ok (.obj [("x", .null)]))
      (.obj [("body", .obj [("y", .num 1)])]) = .ok (.obj [("y", .num 1)]) := by
  have h := c9_normalize_three_shapes
    (fun s => if s = "A" then .ok (.obj [("team_name", .str "Foo")])
              else .ok (.obj [("x", .null)]))
    "A" [("team_name", .str "Foo")]
    [("body", .str "B")] "B" (.obj [("x", .null)])
    [("body", .obj [("y", .num 1)])] [("y", .num 1)]
  exact ⟨h.1 rfl rfl, h.2.1 rfl rfl, h.2.2 rfl⟩

end UploadSubmission


namespace UploadSubmission

theorem ebind_ok {ε α β : Type} (a : α) (f : α → Except ε β) :
    (Except.ok a : Except ε α) >>= f = f a := rfl

theorem ebind_error {ε α β : Type} (msg : ε) (f : α → Except ε β) :
    (Except.error msg : Except ε α) >>= f = Except.error msg := rfl

theorem epure {ε α : Type} (a : α) : (pure a : Except ε α) = Except.ok a := rfl

theorem ghOutputBlock_ok_ne_nil {b : JValue} {ls : List String}
    (h : ghOutputBlock b = .ok ls) : ls ≠ [] := by
  cases b with
  | obj fs =>
    simp only [ghOutputBlock, jGet, ebind_ok, Except.ok.injEq] at h
    rw [← h]
    simp
  | null => simp_all [ghOutputBlock, jGet, ebind_ok, ebind_error]
  | bool x => simp_all [ghOutputBlock, jGet, ebind_ok, ebind_error]
  | num n => simp_all [ghOutputBlock, jGet, ebind_ok, ebind_error]
  | str s => simp_all [ghOutputBlock, jGet, ebind_ok, ebind_error]
  | arr xs => simp_all [ghOutputBlock, jGet, ebind_ok, ebind_error]

theorem ghSummaryBlock_ok_ne_nil {args : UploaderArgs} {flc : Option String}
    {b : JValue} {ls : List String}
    (h : ghSummaryBlock args flc b = .ok ls) : ls ≠ [] := by
  cases b with
  | obj fs =>
    rw [ghSummaryBlock] at h
    simp only [jGet, ebind_ok] at h
    cases hu : pyUpper ((dictGet? fs "role").getD (.str "unknown")) with
    | error msg =>
      rw [hu, ebind_error] at h
      exact absurd h (by simp)
    | ok ru =>
      rw [hu, ebind_ok] at h
      simp only [Except.ok.injEq] at h
      simp [← h]
  | null => simp_all [ghSummaryBlock, jGet, ebind_ok, ebind_error]
  | bool x => simp_all [ghSummaryBlock, jGet, ebind_ok, ebind_error]
  | num n => simp_all [ghSummaryBlock, jGet, ebind_ok, ebind_error]
  | str s => simp_all [ghSummaryBlock, jGet, ebind_ok, ebind_error]
  | arr xs => simp_all [ghSummaryBlock, jGet, ebind_ok, ebind_error]

theorem failureGhOutput_ne_nil (e : PyErr) : failureGhOutput e ≠ [] := by
  simp [failureGhOutput]

theorem failureGhSummary_ne_nil (e : PyErr) : failureGhSummary e ≠ [] := by
  cases e with
  | submission se => cases hd : se.details <;> simp [failureGhSummary, hd]
  | other m => simp [failureGhSummary]

theorem successRest_ok_outputs {loads : String → Except String JValue}
    {w : UploaderWorld} {result : JValue} {eff : SuccessEffects}
    (h : successRest loads w result = .ok eff)
    (hgo : w.ghOutputSet = true) (hgs : w.ghSummarySet = true) :
    eff.ghOutput ≠ [] ∧ eff.ghSummary ≠ [] := by
  rw [successRest] at h
  cases hn : normalize loads result with
  | error msg =>
    rw [hn, ebind_error] at h
    exact absurd h (by simp)
  | ok body =>
    rw [hn, ebind_ok] at h
    simp only [hgo, hgs, if_true] at h
    have step : ∀ info : List String,
        (ghOutputBlock body >>= fun gh =>
          ghSummaryBlock w.args w.fileListContent body >>= fun sm =>
            (Except.ok ⟨info, gh, sm⟩ : Except String SuccessEffects)) = .ok eff →
        eff.ghOutput ≠ [] ∧ eff.ghSummary ≠ [] := by
      intro info hstep
      cases hg : ghOutputBlock body with
      | error msg =>
        rw [hg, ebind_error] at hstep
        exact absurd hstep (by simp)
      | ok gh =>
        rw [hg, ebind_ok] at hstep
        cases hs : ghSummaryBlock w.args w.fileListContent body with
        | error msg =>
          rw [hs, ebind_error] at hstep
          exact absurd hstep (by simp)
        | ok sm =>
          rw [hs, ebind_ok] at hstep
          simp only [Except.ok.injEq] at hstep
          rw [← hstep]
          exact ⟨ghOutputBlock_ok_ne_nil hg, ghSummaryBlock_ok_ne_nil hs⟩
    cases hpi : w.args.print_info with
    | false =>
      rw [hpi] at h
      simp only [Bool.false_eq_true, if_false, epure, ebind_ok] at h
      exact step [] h
    | true =>
      rw [hpi] at h
      simp only [if_true] at h
      cases hi : printInfoBlock body with
      | error msg =>
        rw [hi, ebind_error] at h
        exact absurd h (by simp)
      | ok info =>
        rw [hi, ebind_ok] at h
        exact step info h

/-- C4 as frozen asserts the CI output files are appended on every outcome,
including the usage error for a missing `--file`; at this input both CI
environment variables are set, the file is missing, the process exits 1,
and nothing is appended to either CI output file. -/
theorem c4_missing_file_counterexample :
    (main (fun _ => .error "unused")
        ⟨⟨"key", "https://endpoint", "attacker", "missing.zip", none, none,
          false⟩, false, [], .ok .null, true, true, none⟩).exitCode = 1 ∧
    (main (fun _ => .error "unused")
        ⟨⟨"key", "https://endpoint", "attacker", "missing.zip", none, none,
          false⟩, false, [], .ok .null, true, true, none⟩).ghOutputLines = [] ∧
    (main (fun _ => .error "unused")
        ⟨⟨"key", "https://endpoint", "attacker", "missing.zip", none, none,
          false⟩, false, [], .ok .null, true, true, none⟩).ghSummaryLines = [] :=
  ⟨rfl, rfl, rfl⟩

/-- C4 (amended): once the `--file` existence check has passed, every
outcome of the upload — success or any failure raised inside the `try`
block — appends at least one line to the `GITHUB_OUTPUT` file and at least
one line to the `GITHUB_STEP_SUMMARY` file when both environment variables
are set; the missing-file usage error, however, exits 1 before either CI
output file is written. -/
theorem c4_ci_outputs_after_file_check (loads : String → Except String JValue)
    (w : UploaderWorld) (hfile : w.fileExists = true)
    (hgo : w.ghOutputSet = true) (hgs : w.ghSummarySet = true) :
    (main loads w).ghOutputLines ≠ [] ∧ (main loads w).ghSummaryLines ≠ [] := by
  cases hu : (upload_submission w).2 with
  | error e =>
    have h1 : (main loads w).ghOutputLines = failureGhOutput (.submission e) := by
      simp [main, hfile, hu, mkFailure, hgo]
    have h2 : (main loads w).ghSummaryLines = failureGhSummary (.submission e) := by
      simp [main, hfile, hu, mkFailure, hgs]
    rw [h1, h2]
    exact ⟨failureGhOutput_ne_nil _, failureGhSummary_ne_nil _⟩
  | ok result =>
    cases hs : successRest loads w result with
    | error msg =>
      have h1 : (main loads w).ghOutputLines = failureGhOutput (.other msg) := by
        simp [main, hfile, hu, hs, mkFailure, hgo]
      have h2 : (main loads w).ghSummaryLines = failureGhSummary (.other msg) := by
        simp [main, hfile, hu, hs, mkFailure, hgs]
      rw [h1, h2]
      exact ⟨failureGhOutput_ne_nil _, failureGhSummary_ne_nil _⟩
    | ok eff =>
      have h1 : (main loads w).ghOutputLines = eff.ghOutput := by
        simp [main, hfile, hu, hs]
      have h2 : (main loads w).ghSummaryLines = eff.ghSummary := by
        simp [main, hfile, hu, hs]
      rw [h1, h2]
      exact successRest_ok_outputs hs hgo hgs

theorem c4_ci_outputs_after_file_check_witness :
    (main (fun _ => .error "unused")
        ⟨⟨"key", "https://endpoint", "attacker", "model.zip", none, none,
          false⟩, true, [1, 2, 3], .ok (.obj []), true, true,
          none⟩).ghOutputLines ≠ [] ∧
    (main (fun _ => .error "unused")
        ⟨⟨"key", "https://endpoint", "attacker", "model.zip", none, none,
          false⟩, true, [1, 2, 3], .ok (.obj []), true, true,
          none⟩).ghSummaryLines ≠ [] :=
  c4_ci_outputs_after_file_check _ _ rfl rfl rfl

end UploadSubmission

namespace UploadSubmission

theorem printInfoBlock_ok_of_role_none {fs : List (String × JValue)}
    (h : dictGet? fs "role" = none) :
    ∃ ls, printInfoBlock (.obj fs) = .ok ls := by
  rw [printInfoBlock]
  simp only [jGet, ebind_ok, h, Option.getD_none, pyUpper, pyCapitalize]
  exact ⟨_, rfl⟩

theorem ghOutputBlock_obj_ok (fs : List (String × JValue)) :
    ∃ ls, ghOutputBlock (.obj fs) = .ok ls :=
  ⟨_, rfl⟩

theorem ghSummaryBlock_ok_of_role_none {args : UploaderArgs}
    {flc : Option String} {fs : List (String × JValue)}
    (h : dictGet? fs "role" = none) :
    ∃ ls, ghSummaryBlock args flc (.obj fs) = .ok ls := by
  rw [ghSummaryBlock]
  simp only [jGet, ebind_ok, h, Option.getD_none, pyUpper]
  exact ⟨_, rfl⟩

theorem successRest_ok_of_role_none {loads : String → Except String JValue}
    {w : UploaderWorld} {result : JValue}
    {bodyFields : List (String × JValue)}
    (hnorm : normalize loads result = .ok (.obj bodyFields))
    (hrole : dictGet? bodyFields "role" = none) :
    ∃ eff, successRest loads w result = .ok eff := by
  obtain ⟨l1, h1⟩ := printInfoBlock_ok_of_role_none hrole
  obtain ⟨l2, h2⟩ := ghOutputBlock_obj_ok bodyFields
  obtain ⟨l3, h3⟩ :=
    @ghSummaryBlock_ok_of_role_none w.args w.fileListContent bodyFields hrole
  rw [successRest, hnorm, ebind_ok]
  cases hpi : w.args.print_info <;> cases hgo : w.ghOutputSet <;>
    cases hgs : w.ghSummarySet <;>
    simp [h1, h2, h3, epure, ebind_ok, ebind_error]

/-- C10: a successful upload whose normalized logical body is a mapping
exits with code 0 even when all of the consumed logical-body fields are
absent: every access goes through `body.get` with a placeholder default, so
missing fields never raise an exception and never change the exit code. -/
theorem c10_missing_fields_still_success (loads : String → Except String JValue)
    (w : UploaderWorld) (result : JValue)
    (bodyFields : List (String × JValue))
    (hfile : w.fileExists = true) (hout : w.httpOutcome = .ok result)
    (hnorm : normalize loads result = .ok (.obj bodyFields))
    (habsent : ∀ k ∈ consumedKeys, dictGet? bodyFields k = none) :
    (main loads w).exitCode = 0 := by
  have hrole : dictGet? bodyFields "role" = none :=
    habsent "role" (by simp [consumedKeys])
  obtain ⟨eff, heff⟩ :=
    @successRest_ok_of_role_none loads w result bodyFields hnorm hrole
  have hu : (upload_submission w).2 = .ok result := by
    simp [upload_submission, hout]
  simp [main, hfile, hu, heff]

theorem c10_missing_fields_still_success_witness :
    (main (fun _ => .error "unused")
        ⟨⟨"key", "https://endpoint", "attacker", "model.zip", none, none,
          true⟩, true, [1, 2, 3], .ok (.obj [("body", .obj [])]), true, true,
          none⟩).exitCode = 0 :=
  c10_missing_fields_still_success _ _ (.obj [("body", .obj [])]) []
    rfl rfl rfl (fun _ _ => rfl)

end UploadSubmission
